import Mathlib

/-!
Verification development for the mock Rails job server implemented in
src/jobson/mock-rails-server.py.

The server keeps two module-level Python dicts, `jobs` and `job_outputs`,
and dispatches HTTP requests in the methods `do_GET`, `do_POST` and
`do_DELETE` of `MockRailsHandler`.  We embed that code shallowly:

* JSON values are the inductive `JVal`; Python dicts produced by
  `json.loads` are association lists in insertion order (JSON object keys
  are unique after parsing, which matching Python code relies on).
* The two stores are insertion-ordered association lists inside `Store`;
  `alGet?`, `alSet`, `alDel` and `alUpd` are exactly Python dict lookup,
  assignment, `del` and in-place field update (each touches the first hit,
  which is the only hit for genuine dict states).
* Each handler method is written over the path already split on the slash
  character, as the source itself does with path.split; the wrapper
  functions `do_GET`, `do_POST`, `do_DELETE` apply `String.splitOn`.
  String tests of the source translate to segment tests under the
  correspondence path = intercalation of the segments with a slash:
  an equality test against a fixed path becomes equality with the fixed
  segment list, startswith of a path with a trailing slash becomes a
  match on the corresponding segment pattern with at least one further
  segment, endswith of a slash-led literal becomes a test on the final
  segment, and the substring tests for stdout-updates and stderr-updates
  become the adjacent-segment scan `hasUpdatesSeg` over the tail of the
  segments (the leading slash of the substring forces the match to start
  at a segment boundary after the first segment).
* Nondeterministic effects become parameters: `newId` is the value of
  uuid.uuid4 for this request and `now` the value of datetime.now
  rendered by isoformat (the source samples the clock more than once per
  request; the samples are modelled as one instant, which no claim
  distinguishes).
* Exceptions that escape a handler (json.loads failure, attribute or
  type errors while reading the body) mean the server sends no response
  for that request; this outcome is `none` in the `Option Response`
  result, paired with the store as it stood when the exception was
  raised.  Query parameters page and page-size are modelled for
  non-negative integer values, the only values the claims quantify over.
-/

/-- JSON values, as produced by json.loads. -/
inductive JVal where
  | jnull
  | jbool (b : Bool)
  | jnum (n : Int)
  | jstr (s : String)
  | jarr (xs : List JVal)
  | jobj (fields : List (String × JVal))

/-- Python dict lookup d.get(k): first entry with the key. -/
def alGet? {α : Type} (k : String) : List (String × α) → Option α
  | [] => none
  | (k', v) :: rest => if k' = k then some v else alGet? k rest

/-- Python membership test k in d. -/
def alHas {α : Type} (k : String) (l : List (String × α)) : Bool :=
  (alGet? k l).isSome

/-- Python dict assignment d[k] = v: replace in place, else append. -/
def alSet {α : Type} (k : String) (v : α) : List (String × α) → List (String × α)
  | [] => [(k, v)]
  | (k', v') :: rest => if k' = k then (k', v) :: rest else (k', v') :: alSet k v rest

/-- Python del d[k] (for a key that occurs at most once). -/
def alDel {α : Type} (k : String) : List (String × α) → List (String × α)
  | [] => []
  | (k', v) :: rest => if k' = k then rest else (k', v) :: alDel k rest

/-- In-place update of one stored record, as in jobs[job_id][field] = value. -/
def alUpd {α : Type} (k : String) (f : α → α) : List (String × α) → List (String × α)
  | [] => []
  | (k', v) :: rest => if k' = k then (k', f v) :: rest else (k', v) :: alUpd k f rest

/-- One record of the job_outputs dict. -/
structure JobOutputs where
  stdout : String
  stderr : String

/-- One record of the jobs dict, with the keys the creation code writes.
The name value is an arbitrary JSON value because data.get returns the
stored value unchecked. -/
structure Job where
  id : String
  name : JVal
  spec : String
  inputs : JVal
  submitted : String
  started : String
  finished : Option String
  latestStatus : String

/-- The two module-level dicts of the server. -/
structure Store where
  jobs : List (String × Job)
  job_outputs : List (String × JobOutputs)

/-- Serialization of a stored job record back to JSON, matching the dict
layout built in the creation branch of do_POST. -/
def jobToJ (j : Job) : JVal :=
  .jobj [
    ("id", .jstr j.id),
    ("name", j.name),
    ("spec", .jstr j.spec),
    ("inputs", j.inputs),
    ("timestamps", .jobj [
      ("submitted", .jstr j.submitted),
      ("started", .jstr j.started),
      ("finished", match j.finished with
        | some t => .jstr t
        | none => .jnull)]),
    ("latestStatus", .jstr j.latestStatus)]

/-- Python str.capitalize: first character upper-cased, rest lower-cased. -/
def pyCapitalize (s : String) : String :=
  match s.toList with
  | [] => ""
  | c :: rest => String.mk (c.toUpper :: rest.map Char.toLower)

/-- Body of the root discovery response. -/
def rootLinks : JVal :=
  .jobj [("_links", .jobj [
    ("specs", .jobj [("href", .jstr "/api/v1/specs")]),
    ("jobs", .jobj [("href", .jstr "/api/v1/jobs")])])]

/-- Body of the api-v1 discovery response. -/
def apiV1Links : JVal :=
  .jobj [("_links", .jobj [
    ("specs", .jobj [("href", .jstr "/api/v1/specs")]),
    ("jobs", .jobj [("href", .jstr "/api/v1/jobs")]),
    ("current-user", .jobj [("href", .jstr "/api/v1/users/current")])])]

/-- Body of the spec listing response. -/
def specsListing : JVal :=
  .jobj [("entries", .jarr [
    .jobj [
      ("id", .jstr "echo"),
      ("name", .jstr "Echo"),
      ("description", .jstr "Simple echo command that prints input to stdout"),
      ("href", .jstr "/api/v1/specs/echo")],
    .jobj [
      ("id", .jstr "sleep"),
      ("name", .jstr "Sleep"),
      ("description", .jstr "Sleep for specified seconds"),
      ("href", .jstr "/api/v1/specs/sleep")]])]

/-- Body of the echo spec detail response. -/
def echoSpecDetail : JVal :=
  .jobj [
    ("id", .jstr "echo"),
    ("name", .jstr "Echo"),
    ("description", .jstr "Simple echo command that prints input to stdout"),
    ("expectedInputs", .jarr [
      .jobj [
        ("id", .jstr "message"),
        ("type", .jstr "string"),
        ("name", .jstr "Message"),
        ("description", .jstr "The message to echo"),
        ("default", .jstr "Hello, World!")]]),
    ("expectedOutputs", .jarr []),
    ("execution", .jobj [
      ("application", .jstr "echo"),
      ("arguments", .jarr [.jstr "${inputs.message}"])])]

/-- Body of the sleep spec detail response. -/
def sleepSpecDetail : JVal :=
  .jobj [
    ("id", .jstr "sleep"),
    ("name", .jstr "Sleep"),
    ("description", .jstr "Sleep for specified seconds"),
    ("expectedInputs", .jarr [
      .jobj [
        ("id", .jstr "seconds"),
        ("type", .jstr "integer"),
        ("name", .jstr "Seconds"),
        ("description", .jstr "Number of seconds to sleep"),
        ("default", .jnum 1)]]),
    ("expectedOutputs", .jarr []),
    ("execution", .jobj [
      ("application", .jstr "sleep"),
      ("arguments", .jarr [.jstr "${inputs.seconds}"])])]

/-- Body of the trimmed echo spec returned by the job spec sub-resource. -/
def echoSpecSub : JVal :=
  .jobj [
    ("id", .jstr "echo"),
    ("name", .jstr "Echo"),
    ("description", .jstr "Simple echo command that prints input to stdout"),
    ("expectedInputs", .jarr [
      .jobj [
        ("id", .jstr "message"),
        ("type", .jstr "string"),
        ("name", .jstr "Message"),
        ("description", .jstr "The message to echo")]])]

/-- Body of the current-user response. -/
def currentUserJ : JVal :=
  .jobj [("id", .jstr "guest"), ("name", .jstr "Guest User")]

/-- An HTTP response as this server produces it: a JSON body, a plain-text
body, or the bodyless upgrade-required answer with its Upgrade header. -/
inductive Response where
  | jsonRes (status : Nat) (body : JVal)
  | textRes (status : Nat) (body : String)
  | upgradeRequired (upgradeHeader : String)

/-- The status line of a response (426 for the upgrade answer). -/
def respStatus : Response → Nat
  | .jsonRes s _ => s
  | .textRes s _ => s
  | .upgradeRequired _ => 426

/-- Status of an optional response. -/
def respStatus? : Option Response → Option Nat :=
  Option.map respStatus

/-- The latestStatus field of a JSON response carrying a job record. -/
def jStatusOf : Option Response → Option String
  | some (.jsonRes _ (.jobj fs)) =>
    match alGet? "latestStatus" fs with
    | some (.jstr s) => some s
    | _ => none
  | _ => none

/-- A request body as _get_post_data sees it: absent (Content-Length 0),
present but rejected by json.loads, or parsed to a JSON value. -/
inductive Body where
  | empty
  | malformed
  | json (v : JVal)

/-- _get_post_data: the empty dict for an absent body, the parsed value
otherwise; none when json.loads raises. -/
def getPostData : Body → Option JVal
  | .empty => some (.jobj [])
  | .malformed => none
  | .json v => some v

/-- Adjacent-segment scan equivalent, over the tail of the split path, to
the substring tests for slash-stdout-slash-updates and
slash-stderr-slash-updates used by do_GET. -/
def hasUpdatesSeg : List String → Bool
  | a :: b :: rest =>
    ((a = "stdout" || a = "stderr") && b.startsWith "updates") || hasUpdatesSeg (b :: rest)
  | _ => false

/-- Final segment test, equivalent for split paths of at least two
segments to path.endswith of a slash followed by the given literal. -/
def lastIs (s : String) : List String → Bool
  | [] => false
  | [x] => x = s
  | _ :: x :: xs => lastIs s (x :: xs)

/-- The job listing branch of do_GET: page-size and page default to 100
and 0, entries are the Python slice of the values of the jobs dict. -/
def listJobs (st : Store) (pageSizeQ pageQ : Option Nat) : Response :=
  let page_size := pageSizeQ.getD 100
  let page := pageQ.getD 0
  let job_list := st.jobs.map Prod.snd
  let start := page * page_size
  let stop := start + page_size
  .jsonRes 200 (.jobj [
    ("entries", .jarr (((job_list.drop start).take (stop - start)).map jobToJ)),
    ("page", .jnum page),
    ("pageSize", .jnum page_size),
    ("total", .jnum st.jobs.length)])

/-- The five-segment job detail branch of do_GET. -/
def getJobDetail (st : Store) (job_id : String) : Response :=
  match alGet? job_id st.jobs with
  | some j => .jsonRes 200 (jobToJ j)
  | none => .jsonRes 404 (.jobj [("error", .jstr "Job not found")])

/-- The six-segment job sub-resource branch of do_GET; parts is the full
split path, used only for the endswith updates test of the source. -/
def getJobSub (st : Store) (job_id endpoint : String) (parts : List String) : Response :=
  if ¬ alHas job_id st.jobs ∧ job_id ≠ "test-id" then
    .jsonRes 404 (.jobj [("error", .jstr "Job not found")])
  else if endpoint = "stdout" then
    .textRes 200 (match alGet? job_id st.job_outputs with
      | some o => o.stdout
      | none => "")
  else if endpoint = "stderr" then
    .textRes 200 (match alGet? job_id st.job_outputs with
      | some o => o.stderr
      | none => "")
  else if endpoint = "inputs" then
    match alGet? job_id st.jobs with
    | some j => .jsonRes 200 j.inputs
    | none => .jsonRes 200 (.jobj [])
  else if endpoint = "spec" then
    match alGet? job_id st.jobs with
    | some j =>
      if j.spec = "echo" then
        .jsonRes 200 echoSpecSub
      else
        .jsonRes 200 (.jobj [
          ("id", .jstr j.spec),
          ("name", .jstr (pyCapitalize j.spec)),
          ("description", .jstr ("Spec for " ++ j.spec))])
    | none => .jsonRes 404 (.jobj [("error", .jstr "Job not found")])
  else if endpoint = "events" || endpoint = "stdout" || endpoint = "stderr" then
    if endpoint = "events" || lastIs "updates" parts then
      .upgradeRequired "websocket"
    else
      .jsonRes 404 (.jobj [("error", .jstr "Not found")])
  else
    .jsonRes 404 (.jobj [("error", .jstr "Unknown endpoint")])

/-- do_GET of MockRailsHandler over the split path; pageSizeQ and pageQ
are the page-size and page query parameters when present.  The result is
none exactly when the source method falls through every branch without
sending a response (a jobs path of the wrong segment count). -/
def doGETcore (st : Store) (parts : List String) (pageSizeQ pageQ : Option Nat) :
    Option Response :=
  if parts = ["", ""] then
    some (.jsonRes 200 rootLinks)
  else if parts = ["", "api", "v1"] then
    some (.jsonRes 200 apiV1Links)
  else if parts = ["", "api", "v1", "specs"] then
    some (.jsonRes 200 specsListing)
  else if parts = ["", "api", "v1", "specs", "echo"] then
    some (.jsonRes 200 echoSpecDetail)
  else if parts = ["", "api", "v1", "specs", "sleep"] then
    some (.jsonRes 200 sleepSpecDetail)
  else if parts = ["", "api", "v1", "jobs"] then
    some (listJobs st pageSizeQ pageQ)
  else if parts = ["", "api", "v1", "jobs", "events"] then
    some (.upgradeRequired "websocket")
  else if hasUpdatesSeg parts.tail then
    some (.upgradeRequired "websocket")
  else
    match parts with
    | "" :: "api" :: "v1" :: "jobs" :: tail =>
      match tail with
      | [job_id] => some (getJobDetail st job_id)
      | [job_id, endpoint] => some (getJobSub st job_id endpoint parts)
      | _ => none
    | _ =>
      if parts = ["", "api", "v1", "users", "current"] then
        some (.jsonRes 200 currentUserJ)
      else
        match parts with
        | "" :: "api" :: "v1" :: "specs" :: _ :: _ =>
          some (.jsonRes 404 (.jobj [("error", .jstr "Spec not found")]))
        | _ => some (.jsonRes 404 (.jobj [("error", .jstr "Not found")]))

/-- Reading the message input during the simulated echo execution:
data.get applied to the inputs value, then the string concatenation.
The result is none when the source raises (attribute error on a non-dict
inputs value, type error concatenating a non-string message). -/
def pyGetMessage : JVal → Option String
  | .jobj ifs =>
    match alGet? "message" ifs with
    | none => some "Hello, World!"
    | some (.jstr s) => some s
    | some _ => none
  | _ => none

/-- The job-creation branch of do_POST, after the spec id has been
validated as the string echo or sleep; fields is the parsed body object.
The job is stored with status SUBMITTED, then for echo the stored record
is mutated to FINISHED with outputs recorded; a failure while reading the
message leaves the SUBMITTED record stored and no response sent. -/
def createJob (st : Store) (fields : List (String × JVal)) (sid newId now : String) :
    Option Response × Store :=
  let name := (alGet? "name" fields).getD (.jstr ("Job " ++ newId.take 8))
  let inputs := (alGet? "inputs" fields).getD (.jobj [])
  let job0 : Job :=
    { id := newId, name := name, spec := sid, inputs := inputs,
      submitted := now, started := now, finished := none,
      latestStatus := "SUBMITTED" }
  let st1 : Store := { st with jobs := alSet newId job0 st.jobs }
  if sid = "echo" then
    match pyGetMessage inputs with
    | none => (none, st1)
    | some msg =>
      let job1 : Job := { job0 with latestStatus := "FINISHED", finished := some now }
      (some (.jsonRes 200 (jobToJ job1)),
       { jobs := alSet newId job1 st1.jobs,
         job_outputs := alSet newId ⟨msg ++ "\n", ""⟩ st1.job_outputs })
  else
    (some (.jsonRes 200 (jobToJ job0)), st1)

/-- The abort branch of do_POST: any stored job gets its latestStatus set
to ABORTED in place and a 200 response, with no terminal-state check and
no change to its finished timestamp. -/
def abortJob (st : Store) (job_id : String) : Option Response × Store :=
  if alHas job_id st.jobs then
    (some (.jsonRes 200 (.jobj [("message", .jstr "Job aborted")])),
     { st with jobs := alUpd job_id (fun j => { j with latestStatus := "ABORTED" }) st.jobs })
  else
    (some (.jsonRes 404 (.jobj [("error", .jstr "Job not found")])), st)

/-- do_POST of MockRailsHandler over the split path.  newId and now model
uuid.uuid4 and datetime.now for this request.  A none response means the
method raised (json.loads failure, or attribute and type errors while
reading the body) and the server sent nothing; the paired store is the
state at the moment of the raise. -/
def doPOSTcore (st : Store) (parts : List String) (body : Body) (newId now : String) :
    Option Response × Store :=
  if parts = ["", "api", "v1", "jobs"] then
    match getPostData body with
    | none => (none, st)
    | some data =>
      match data with
      | .jobj fields =>
        match alGet? "spec" fields with
        | some (.jstr sid) =>
          if sid = "echo" ∨ sid = "sleep" then
            createJob st fields sid newId now
          else
            (some (.jsonRes 400 (.jobj [("error", .jstr "Invalid spec")])), st)
        | some _ =>
          (some (.jsonRes 400 (.jobj [("error", .jstr "Invalid spec")])), st)
        | none =>
          (some (.jsonRes 400 (.jobj [("error", .jstr "Invalid spec")])), st)
      | _ => (none, st)
  else
    match parts with
    | "" :: "api" :: "v1" :: "jobs" :: job_id :: rest =>
      if lastIs "abort" (job_id :: rest) then
        abortJob st job_id
      else
        (some (.jsonRes 404 (.jobj [("error", .jstr "Not found")])), st)
    | _ => (some (.jsonRes 404 (.jobj [("error", .jstr "Not found")])), st)

/-- do_DELETE of MockRailsHandler over the split path: any path below the
jobs collection deletes the job named by the fifth segment when stored,
removing its outputs record too. -/
def doDELETEcore (st : Store) (parts : List String) : Response × Store :=
  match parts with
  | "" :: "api" :: "v1" :: "jobs" :: job_id :: _ =>
    if alHas job_id st.jobs then
      (.jsonRes 200 (.jobj [("message", .jstr "Job deleted")]),
       { jobs := alDel job_id st.jobs,
         job_outputs := alDel job_id st.job_outputs })
    else
      (.jsonRes 404 (.jobj [("error", .jstr "Job not found")]), st)
  | _ => (.jsonRes 404 (.jobj [("error", .jstr "Not found")]), st)

/-- Character-level worker for the slash split. -/
def splitSegs : List Char → List (List Char)
  | [] => [[]]
  | c :: cs =>
    match splitSegs cs with
    | [] => [[]]
    | s :: ss => if c = '/' then [] :: s :: ss else (c :: s) :: ss

/-- Python path.split with a slash separator: every occurrence splits and
empty segments are kept, so the result of a path starting with a slash
begins with an empty segment. -/
def pySplitSlash (s : String) : List String :=
  (splitSegs s.toList).map String.mk

/-- do_GET over the raw path string (query already separated by urlparse). -/
def do_GET (st : Store) (path : String) (pageSizeQ pageQ : Option Nat) :
    Option Response :=
  doGETcore st (pySplitSlash path) pageSizeQ pageQ

/-- do_POST over the raw path string. -/
def do_POST (st : Store) (path : String) (body : Body) (newId now : String) :
    Option Response × Store :=
  doPOSTcore st (pySplitSlash path) body newId now

/-- do_DELETE over the raw path string. -/
def do_DELETE (st : Store) (path : String) : Response × Store :=
  doDELETEcore st (pySplitSlash path)

/-- A status string is terminal when it is FINISHED or ABORTED. -/
def isTerminal (s : String) : Bool :=
  s = "FINISHED" || s = "ABORTED"

/-- The finished-iff-terminal condition for one job record. -/
def jobOKb (j : Job) : Bool :=
  j.finished.isSome == isTerminal j.latestStatus

/-- The spec invariant over a store: every stored job has its finished
timestamp set exactly when its status is terminal. -/
def invariantB (st : Store) : Bool :=
  st.jobs.all (fun p => jobOKb p.2)

/-- Well-formedness of the dict embedding: keys occur at most once, as in
any real Python dict state. -/
def wfKeys (st : Store) : Prop :=
  (st.jobs.map Prod.fst).Nodup ∧ (st.job_outputs.map Prod.fst).Nodup

theorem alGet?_alSet_self {α : Type} (k : String) (v : α) (l : List (String × α)) :
    alGet? k (alSet k v l) = some v := by
  induction l with
  | nil => simp [alSet, alGet?]
  | cons p rest ih =>
    obtain ⟨k', v'⟩ := p
    by_cases h : k' = k
    · simp [alSet, alGet?, h]
    · simp [alSet, alGet?, h, ih]

theorem alGet?_eq_none_of_not_mem {α : Type} (k : String) (l : List (String × α))
    (h : k ∉ l.map Prod.fst) : alGet? k l = none := by
  induction l with
  | nil => simp [alGet?]
  | cons p rest ih =>
    obtain ⟨k', v'⟩ := p
    simp only [List.map_cons, List.mem_cons] at h
    push_neg at h
    have hk : ¬ k' = k := fun hh => h.1 hh.symm
    simp [alGet?, hk, ih h.2]

theorem alGet?_alDel_self {α : Type} (k : String) (l : List (String × α))
    (h : (l.map Prod.fst).Nodup) : alGet? k (alDel k l) = none := by
  induction l with
  | nil => simp [alDel, alGet?]
  | cons p rest ih =>
    obtain ⟨k', v'⟩ := p
    simp only [List.map_cons, List.nodup_cons] at h
    by_cases hk : k' = k
    · subst hk
      simpa [alDel] using alGet?_eq_none_of_not_mem k' rest h.1
    · simp [alDel, alGet?, hk, ih h.2]

theorem alGet?_alUpd_self {α : Type} (k : String) (f : α → α) (l : List (String × α)) :
    alGet? k (alUpd k f l) = (alGet? k l).map f := by
  induction l with
  | nil => simp [alUpd, alGet?]
  | cons p rest ih =>
    obtain ⟨k', v'⟩ := p
    by_cases h : k' = k
    · simp [alUpd, alGet?, h]
    · simp [alUpd, alGet?, h, ih]

theorem all_alSet {α : Type} (p : String × α → Bool) (k : String) (v : α)
    (l : List (String × α)) (h : l.all p = true) (hv : p (k, v) = true) :
    (alSet k v l).all p = true := by
  induction l with
  | nil => simp [alSet, hv]
  | cons q rest ih =>
    obtain ⟨k', v'⟩ := q
    simp only [List.all_cons, Bool.and_eq_true] at h
    by_cases hk : k' = k
    · subst hk
      simp [alSet, List.all_cons, hv, h.2]
    · simp [alSet, hk, List.all_cons, h.1, ih h.2]

theorem all_alDel {α : Type} (p : String × α → Bool) (k : String)
    (l : List (String × α)) (h : l.all p = true) : (alDel k l).all p = true := by
  induction l with
  | nil => simp [alDel]
  | cons q rest ih =>
    obtain ⟨k', v'⟩ := q
    simp only [List.all_cons, Bool.and_eq_true] at h
    by_cases hk : k' = k
    · simp [alDel, hk, h.2]
    · simp [alDel, hk, List.all_cons, h.1, ih h.2]

theorem mem_alUpd_of_alGet? {α : Type} (k : String) (f : α → α)
    (l : List (String × α)) (j : α) (h : alGet? k l = some j) :
    (k, f j) ∈ alUpd k f l := by
  induction l with
  | nil => simp [alGet?] at h
  | cons q rest ih =>
    obtain ⟨k', v'⟩ := q
    by_cases hk : k' = k
    · subst hk
      simp [alGet?] at h
      subst h
      simp [alUpd]
    · simp only [alGet?, if_neg hk] at h
      simp [alUpd, hk, ih h]

theorem doPOST_create_eq (st : Store) (body : Body) (newId now : String) :
    doPOSTcore st ["", "api", "v1", "jobs"] body newId now =
      (match getPostData body with
       | none => (none, st)
       | some data =>
         match data with
         | .jobj fields =>
           match alGet? "spec" fields with
           | some (.jstr sid) =>
             if sid = "echo" ∨ sid = "sleep" then
               createJob st fields sid newId now
             else
               (some (.jsonRes 400 (.jobj [("error", .jstr "Invalid spec")])), st)
           | some _ => (some (.jsonRes 400 (.jobj [("error", .jstr "Invalid spec")])), st)
           | none => (some (.jsonRes 400 (.jobj [("error", .jstr "Invalid spec")])), st)
         | _ => (none, st)) := rfl

theorem doPOST_createObj_eq (st : Store) (fields : List (String × JVal))
    (newId now : String) :
    doPOSTcore st ["", "api", "v1", "jobs"] (.json (.jobj fields)) newId now =
      (match alGet? "spec" fields with
       | some (.jstr sid) =>
         if sid = "echo" ∨ sid = "sleep" then
           createJob st fields sid newId now
         else
           (some (.jsonRes 400 (.jobj [("error", .jstr "Invalid spec")])), st)
       | some _ => (some (.jsonRes 400 (.jobj [("error", .jstr "Invalid spec")])), st)
       | none => (some (.jsonRes 400 (.jobj [("error", .jstr "Invalid spec")])), st)) := rfl

theorem doPOST_abort_eq (st : Store) (id : String) (body : Body) (newId now : String) :
    doPOSTcore st ["", "api", "v1", "jobs", id, "abort"] body newId now = abortJob st id := rfl

theorem doGET_detail_eq (st : Store) (id : String) (psq pq : Option Nat)
    (hid : id ≠ "events") :
    doGETcore st ["", "api", "v1", "jobs", id] psq pq = some (getJobDetail st id) := by
  simp only [doGETcore]
  rw [if_neg (by simp), if_neg (by simp), if_neg (by simp), if_neg (by simp),
      if_neg (by simp), if_neg (by simp), if_neg (by simp [hid])]
  rfl

theorem doGET_sub_eq (st : Store) (id ep : String) (psq pq : Option Nat)
    (hup : hasUpdatesSeg ["api", "v1", "jobs", id, ep] = false) :
    doGETcore st ["", "api", "v1", "jobs", id, ep] psq pq =
      some (getJobSub st id ep ["", "api", "v1", "jobs", id, ep]) := by
  simp only [doGETcore]
  rw [if_neg (by simp), if_neg (by simp), if_neg (by simp), if_neg (by simp),
      if_neg (by simp), if_neg (by simp), if_neg (by simp), if_neg (by simp [hup])]

theorem doGET_listing_eq (st : Store) (psq pq : Option Nat) :
    doGETcore st ["", "api", "v1", "jobs"] psq pq = some (listJobs st psq pq) := rfl

theorem doDELETE_jobs_eq (st : Store) (id : String) (rest : List String) :
    doDELETEcore st ("" :: "api" :: "v1" :: "jobs" :: id :: rest) =
      (if alHas id st.jobs then
        (.jsonRes 200 (.jobj [("message", .jstr "Job deleted")]),
         { jobs := alDel id st.jobs, job_outputs := alDel id st.job_outputs })
      else
        (.jsonRes 404 (.jobj [("error", .jstr "Job not found")]), st)) := rfl

/-- A finished sample job record used in concrete instances. -/
def sampleFinished : Job :=
  { id := "j1", name := .jstr "J1", spec := "echo",
    inputs := .jobj [("message", .jstr "hi")],
    submitted := "t0", started := "t0", finished := some "t0",
    latestStatus := "FINISHED" }

/-- A submitted, non-terminal sample job record used in concrete instances. -/
def sampleSubmitted : Job :=
  { id := "j2", name := .jstr "J2", spec := "sleep", inputs := .jobj [],
    submitted := "t0", started := "t0", finished := none,
    latestStatus := "SUBMITTED" }

/-- A sample store holding one finished and one submitted job. -/
def stSample : Store :=
  ⟨[("j1", sampleFinished), ("j2", sampleSubmitted)], []⟩

/-- C4: a POST to the jobs collection whose body is not valid JSON makes
_get_post_data raise an uncaught json.loads error: the handler sends no
response at all instead of a 400 or 422, and no job is added - the store
is returned unchanged. -/
theorem C4_malformed_body_no_response (st : Store) (newId now : String) :
    doPOSTcore st ["", "api", "v1", "jobs"] .malformed newId now = (none, st) := rfl

/-- C6: the job listing returns status 200 with entries the slice of all
stored jobs in creation order from index page times pageSize of length
pageSize, total is always the full job count, the entry count never
exceeds pageSize, an out-of-range page gives empty entries, and absent
query parameters default to page zero and page size one hundred. -/
theorem C6_listing_pagination (st : Store) (page ps : Nat) :
    doGETcore st ["", "api", "v1", "jobs"] (some ps) (some page) =
      some (.jsonRes 200 (.jobj [
        ("entries", .jarr ((((st.jobs.map Prod.snd).drop (page * ps)).take ps).map jobToJ)),
        ("page", .jnum page),
        ("pageSize", .jnum ps),
        ("total", .jnum st.jobs.length)]))
    ∧ (((((st.jobs.map Prod.snd).drop (page * ps)).take ps).map jobToJ)).length ≤ ps
    ∧ (st.jobs.length ≤ page * ps →
        ((st.jobs.map Prod.snd).drop (page * ps)).take ps = [])
    ∧ doGETcore st ["", "api", "v1", "jobs"] none none =
        doGETcore st ["", "api", "v1", "jobs"] (some 100) (some 0) := by
  refine ⟨?_, ?_, ?_, rfl⟩
  · rw [doGET_listing_eq]
    simp [listJobs, Nat.add_sub_cancel_left]
  · simp only [List.length_map, List.length_take]
    exact Nat.min_le_left _ _
  · intro h
    have hd : (st.jobs.map Prod.snd).drop (page * ps) = [] :=
      List.drop_eq_nil_of_le (by simpa using h)
    rw [hd]
    simp

/-- C6 witness: with two stored jobs, page one of size one holds exactly
the second job, total stays two, and page five is empty. -/
theorem C6_listing_pagination_witness :
    doGETcore stSample ["", "api", "v1", "jobs"] (some 1) (some 1) =
      some (.jsonRes 200 (.jobj [
        ("entries", .jarr [jobToJ sampleSubmitted]),
        ("page", .jnum 1),
        ("pageSize", .jnum 1),
        ("total", .jnum 2)]))
    ∧ ((stSample.jobs.map Prod.snd).drop (5 * 1)).take 1 = [] :=
  ⟨(C6_listing_pagination stSample 1 1).1,
   (C6_listing_pagination stSample 5 1).2.2.1 (by decide)⟩

/-- C7: submitting a body whose spec field is absent or anything other
than the string echo or sleep yields 400 and leaves the store unchanged,
so a subsequent listing is identical to one taken before the request. -/
theorem C7_invalid_spec_rejected (st : Store) (fields : List (String × JVal))
    (newId now : String)
    (h : ∀ s, alGet? "spec" fields = some (.jstr s) → s ≠ "echo" ∧ s ≠ "sleep") :
    doPOSTcore st ["", "api", "v1", "jobs"] (.json (.jobj fields)) newId now =
      (some (.jsonRes 400 (.jobj [("error", .jstr "Invalid spec")])), st)
    ∧ doGETcore (doPOSTcore st ["", "api", "v1", "jobs"] (.json (.jobj fields)) newId now).snd
        ["", "api", "v1", "jobs"] none none =
      doGETcore st ["", "api", "v1", "jobs"] none none := by
  have main : doPOSTcore st ["", "api", "v1", "jobs"] (.json (.jobj fields)) newId now =
      (some (.jsonRes 400 (.jobj [("error", .jstr "Invalid spec")])), st) := by
    rw [doPOST_createObj_eq]
    cases hs : alGet? "spec" fields with
    | none => rfl
    | some v =>
      cases v with
      | jstr s =>
        obtain ⟨h1, h2⟩ := h s hs
        simp [h1, h2]
      | jnull => rfl
      | jbool b => rfl
      | jnum n => rfl
      | jarr xs => rfl
      | jobj fs => rfl
  exact ⟨main, by rw [main]⟩

/-- C7 witness: a concrete submission naming the unknown spec blah is
rejected with 400 and the store is untouched. -/
theorem C7_invalid_spec_rejected_witness :
    doPOSTcore stSample ["", "api", "v1", "jobs"]
        (.json (.jobj [("spec", .jstr "blah")])) "n1" "t1" =
      (some (.jsonRes 400 (.jobj [("error", .jstr "Invalid spec")])), stSample)
    ∧ doGETcore (doPOSTcore stSample ["", "api", "v1", "jobs"]
          (.json (.jobj [("spec", .jstr "blah")])) "n1" "t1").snd
        ["", "api", "v1", "jobs"] none none =
      doGETcore stSample ["", "api", "v1", "jobs"] none none :=
  C7_invalid_spec_rejected stSample [("spec", .jstr "blah")] "n1" "t1"
    (by
      intro s hs
      simp [alGet?] at hs
      subst hs
      exact ⟨by decide, by decide⟩)

/-- C1 counterexample: aborting the stored job j1, already FINISHED,
returns status 200 and overwrites its status with ABORTED, instead of the
claimed Conflict 409 with an unchanged record. -/
theorem C1_abort_terminal_counterexample :
    respStatus? (doPOSTcore stSample ["", "api", "v1", "jobs", "j1", "abort"]
        .empty "x" "t").fst = some 200
    ∧ (some 200 : Option Nat) ≠ some 409
    ∧ (alGet? "j1" (doPOSTcore stSample ["", "api", "v1", "jobs", "j1", "abort"]
        .empty "x" "t").snd.jobs).map Job.latestStatus = some "ABORTED" :=
  ⟨rfl, by decide, rfl⟩

/-- C1 amended: for any stored job, terminal or not, the abort endpoint
returns 200 and sets latestStatus to ABORTED in place, never a 409
Conflict, and never stamps the finished timestamp; for an absent job id
it returns 404 and leaves the store unchanged. -/
theorem C1_abort_behavior (st : Store) (id : String) (body : Body) (newId now : String) :
    (∀ j, alGet? id st.jobs = some j →
      doPOSTcore st ["", "api", "v1", "jobs", id, "abort"] body newId now =
        (some (.jsonRes 200 (.jobj [("message", .jstr "Job aborted")])),
         { st with jobs := alUpd id (fun j0 => { j0 with latestStatus := "ABORTED" }) st.jobs })
      ∧ alGet? id (alUpd id (fun j0 => { j0 with latestStatus := "ABORTED" }) st.jobs) =
          some { j with latestStatus := "ABORTED" }
      ∧ ({ j with latestStatus := "ABORTED" } : Job).finished = j.finished)
    ∧ (alGet? id st.jobs = none →
      doPOSTcore st ["", "api", "v1", "jobs", id, "abort"] body newId now =
        (some (.jsonRes 404 (.jobj [("error", .jstr "Job not found")])), st)) := by
  constructor
  · intro j hj
    refine ⟨?_, ?_, rfl⟩
    · rw [doPOST_abort_eq]
      simp [abortJob, alHas, hj]
    · rw [alGet?_alUpd_self, hj]
      rfl
  · intro hj
    rw [doPOST_abort_eq]
    simp [abortJob, alHas, hj]

/-- C1 witness: aborting the stored submitted job j2 gives 200 with its
status set to ABORTED and its finished timestamp still unset, and
aborting the absent id zz gives 404. -/
theorem C1_abort_behavior_witness :
    (doPOSTcore stSample ["", "api", "v1", "jobs", "j2", "abort"] .empty "x" "t" =
      (some (.jsonRes 200 (.jobj [("message", .jstr "Job aborted")])),
       { stSample with
         jobs := alUpd "j2" (fun j0 => { j0 with latestStatus := "ABORTED" }) stSample.jobs })
      ∧ alGet? "j2" (alUpd "j2" (fun j0 => { j0 with latestStatus := "ABORTED" }) stSample.jobs) =
          some { sampleSubmitted with latestStatus := "ABORTED" }
      ∧ ({ sampleSubmitted with latestStatus := "ABORTED" } : Job).finished =
          sampleSubmitted.finished)
    ∧ doPOSTcore stSample ["", "api", "v1", "jobs", "zz", "abort"] .empty "x" "t" =
        (some (.jsonRes 404 (.jobj [("error", .jstr "Job not found")])), stSample) :=
  ⟨(C1_abort_behavior stSample "j2" .empty "x" "t").1 sampleSubmitted rfl,
   (C1_abort_behavior stSample "zz" .empty "x" "t").2 rfl⟩

/-- C2 counterexample: creating a job with the catalog spec sleep returns
a job whose latestStatus is SUBMITTED, which is not terminal - only echo
jobs are simulated to completion before the response. -/
theorem C2_sleep_not_terminal_counterexample :
    jStatusOf (doPOSTcore ⟨[], []⟩ ["", "api", "v1", "jobs"]
        (.json (.jobj [("spec", .jstr "sleep")])) "id1" "t1").fst = some "SUBMITTED"
    ∧ isTerminal "SUBMITTED" = false := ⟨rfl, rfl⟩

/-- C2 amended: creation with spec echo, when the message input is a
string or absent, responds with a FINISHED and hence terminal job, while
creation with spec sleep responds with a SUBMITTED, non-terminal job
because only echo execution is simulated. -/
theorem C2_create_status (st : Store) (fields : List (String × JVal)) (newId now : String) :
    (alGet? "spec" fields = some (.jstr "echo") →
      ∀ msg, pyGetMessage ((alGet? "inputs" fields).getD (.jobj [])) = some msg →
      jStatusOf (doPOSTcore st ["", "api", "v1", "jobs"] (.json (.jobj fields)) newId now).fst =
        some "FINISHED" ∧ isTerminal "FINISHED" = true)
    ∧ (alGet? "spec" fields = some (.jstr "sleep") →
      jStatusOf (doPOSTcore st ["", "api", "v1", "jobs"] (.json (.jobj fields)) newId now).fst =
        some "SUBMITTED" ∧ isTerminal "SUBMITTED" = false) := by
  constructor
  · intro hspec msg hmsg
    refine ⟨?_, rfl⟩
    rw [doPOST_createObj_eq, hspec]
    simp only [createJob]
    rw [hmsg]
    simp [jStatusOf, jobToJ, alGet?]
  · intro hspec
    refine ⟨?_, rfl⟩
    rw [doPOST_createObj_eq, hspec]
    simp [createJob, jStatusOf, jobToJ, alGet?]

/-- C2 witness: a concrete echo submission with message hi responds with
status FINISHED. -/
theorem C2_create_status_witness :
    jStatusOf (doPOSTcore ⟨[], []⟩ ["", "api", "v1", "jobs"]
        (.json (.jobj [("spec", .jstr "echo"),
                       ("inputs", .jobj [("message", .jstr "hi")])])) "idA" "tA").fst =
      some "FINISHED"
    ∧ isTerminal "FINISHED" = true :=
  (C2_create_status ⟨[], []⟩
      [("spec", .jstr "echo"), ("inputs", .jobj [("message", .jstr "hi")])]
      "idA" "tA").1 rfl "hi" rfl

theorem hasUpdatesSeg_gen (id ep : String) (h : ep.startsWith "updates" = false) :
    hasUpdatesSeg ["api", "v1", "jobs", id, ep] = false := by
  simp [hasUpdatesSeg, h]

theorem invariantB_createJob (st : Store) (fields : List (String × JVal))
    (sid newId now : String) (hinv : invariantB st = true) :
    invariantB (createJob st fields sid newId now).snd = true := by
  unfold invariantB at hinv ⊢
  simp only [createJob]
  by_cases hecho : sid = "echo"
  · rw [if_pos hecho]
    cases hm : pyGetMessage ((alGet? "inputs" fields).getD (.jobj [])) with
    | none => exact all_alSet _ newId _ st.jobs hinv rfl
    | some msg =>
      exact all_alSet _ newId _ _ (all_alSet _ newId _ st.jobs hinv rfl) rfl
  · rw [if_neg hecho]
    exact all_alSet _ newId _ st.jobs hinv rfl

theorem invariantB_doDELETE (st : Store) (parts : List String)
    (hinv : invariantB st = true) :
    invariantB (doDELETEcore st parts).snd = true := by
  unfold doDELETEcore
  split
  · split
    · exact all_alDel _ _ _ hinv
    · exact hinv
  · exact hinv

/-- C3 counterexample: from the empty store, creating a sleep job and
then aborting it is a reachable two-request history whose final state
violates the finished-iff-terminal invariant: the stored job is ABORTED
while its finished timestamp is still null. -/
theorem C3_invariant_counterexample :
    invariantB (doPOSTcore (doPOSTcore ⟨[], []⟩ ["", "api", "v1", "jobs"]
        (.json (.jobj [("spec", .jstr "sleep")])) "a" "t1").snd
      ["", "api", "v1", "jobs", "a", "abort"] .empty "b" "t2").snd = false := rfl

/-- C3 amended: job creation and deletion preserve the
finished-iff-terminal invariant (and GET requests do not touch the
store), but abort breaks it: aborting any stored job with status
SUBMITTED and a null finished timestamp produces a state in which that
job is ABORTED with finished still null, violating the invariant. -/
theorem C3_finished_iff_terminal (st : Store) :
    (invariantB st = true →
      (∀ body newId now,
        invariantB (doPOSTcore st ["", "api", "v1", "jobs"] body newId now).snd = true)
      ∧ (∀ parts, invariantB (doDELETEcore st parts).snd = true))
    ∧ (∀ id j, alGet? id st.jobs = some j → j.latestStatus = "SUBMITTED" →
        j.finished = none →
        invariantB (doPOSTcore st ["", "api", "v1", "jobs", id, "abort"]
          .empty "x" "t").snd = false) := by
  constructor
  · intro hinv
    constructor
    · intro body newId now
      cases body with
      | empty => exact hinv
      | malformed => exact hinv
      | json v =>
        cases v with
        | jobj fields =>
          rw [doPOST_createObj_eq]
          cases hs : alGet? "spec" fields with
          | none => exact hinv
          | some v2 =>
            cases v2 with
            | jstr s =>
              show invariantB (if s = "echo" ∨ s = "sleep" then
                  createJob st fields s newId now
                else
                  (some (.jsonRes 400 (.jobj [("error", .jstr "Invalid spec")])), st)).2 = true
              by_cases hss : s = "echo" ∨ s = "sleep"
              · rw [if_pos hss]
                exact invariantB_createJob st fields s newId now hinv
              · rw [if_neg hss]
                exact hinv
            | jnull => exact hinv
            | jbool b => exact hinv
            | jnum n => exact hinv
            | jarr xs => exact hinv
            | jobj fs => exact hinv
        | jnull => exact hinv
        | jbool b => exact hinv
        | jnum n => exact hinv
        | jstr s => exact hinv
        | jarr xs => exact hinv
    · intro parts
      exact invariantB_doDELETE st parts hinv
  · intro id j hj hstat hfin
    rw [doPOST_abort_eq]
    simp only [abortJob, alHas, hj, Option.isSome_some, if_pos]
    have hmem :=
      mem_alUpd_of_alGet? id (fun j0 => { j0 with latestStatus := "ABORTED" }) st.jobs j hj
    unfold invariantB
    cases hall : (alUpd id (fun j0 => { j0 with latestStatus := "ABORTED" }) st.jobs).all
        (fun p => jobOKb p.2) with
    | false => rfl
    | true =>
      have hok := List.all_eq_true.mp hall _ hmem
      simp [jobOKb, hfin, isTerminal] at hok

/-- C3 witness: creation of a sleep job on the sample store and deletion
of a stored job both preserve the invariant, while aborting the stored
submitted job j2 breaks it. -/
theorem C3_finished_iff_terminal_witness :
    invariantB (doPOSTcore stSample ["", "api", "v1", "jobs"]
        (.json (.jobj [("spec", .jstr "sleep")])) "n3" "t3").snd = true
    ∧ invariantB (doDELETEcore stSample ["", "api", "v1", "jobs", "j1"]).snd = true
    ∧ invariantB (doPOSTcore stSample ["", "api", "v1", "jobs", "j2", "abort"]
        .empty "x" "t").snd = false :=
  ⟨((C3_finished_iff_terminal stSample).1 rfl).1
      (.json (.jobj [("spec", .jstr "sleep")])) "n3" "t3",
   ((C3_finished_iff_terminal stSample).1 rfl).2 ["", "api", "v1", "jobs", "j1"],
   (C3_finished_iff_terminal stSample).2 "j2" sampleSubmitted rfl rfl rfl⟩

/-- C5 counterexample: with an empty store, the stdout sub-resource of
the absent job id test-id answers 200 with empty text rather than 404:
the handler hard-codes an exception for this id. -/
theorem C5_testid_counterexample :
    do_GET ⟨[], []⟩ "/api/v1/jobs/test-id/stdout" none none = some (.textRes 200 "")
    ∧ respStatus? (do_GET ⟨[], []⟩ "/api/v1/jobs/test-id/stdout" none none) ≠ some 404 :=
  ⟨rfl, by decide⟩

/-- C5 amended: a GET of a job sub-resource inputs, spec, stdout or
stderr resolves the parent first and yields 404 whenever the parent id is
absent, for every id except the hard-coded test-id; for the absent id
test-id itself, stdout yields 200 with recorded or empty text, inputs
yields 200 with an empty object, and spec still yields 404. -/
theorem C5_subresource_parent_404 (st : Store) (id sub : String)
    (habs : alGet? id st.jobs = none)
    (hsub : sub = "inputs" ∨ sub = "spec" ∨ sub = "stdout" ∨ sub = "stderr") :
    (id ≠ "test-id" →
      doGETcore st ["", "api", "v1", "jobs", id, sub] none none =
        some (.jsonRes 404 (.jobj [("error", .jstr "Job not found")])))
    ∧ (id = "test-id" →
      doGETcore st ["", "api", "v1", "jobs", id, "stdout"] none none =
        some (.textRes 200 (match alGet? id st.job_outputs with
          | some o => o.stdout
          | none => ""))
      ∧ doGETcore st ["", "api", "v1", "jobs", id, "inputs"] none none =
          some (.jsonRes 200 (.jobj []))
      ∧ doGETcore st ["", "api", "v1", "jobs", id, "spec"] none none =
          some (.jsonRes 404 (.jobj [("error", .jstr "Job not found")]))) := by
  constructor
  · intro hid
    rcases hsub with h | h | h | h <;> subst h <;>
      rw [doGET_sub_eq st id _ none none (hasUpdatesSeg_gen id _ (by decide))] <;>
      simp [getJobSub, alHas, habs, hid]
  · intro hid
    subst hid
    refine ⟨?_, ?_, ?_⟩
    · rw [doGET_sub_eq st "test-id" "stdout" none none
        (hasUpdatesSeg_gen "test-id" "stdout" (by decide))]
      simp [getJobSub, alHas, habs]
    · rw [doGET_sub_eq st "test-id" "inputs" none none
        (hasUpdatesSeg_gen "test-id" "inputs" (by decide))]
      simp [getJobSub, alHas, habs]
    · rw [doGET_sub_eq st "test-id" "spec" none none
        (hasUpdatesSeg_gen "test-id" "spec" (by decide))]
      simp [getJobSub, alHas, habs]

/-- C5 witness: on the sample store, the inputs sub-resource of the
absent id nope yields 404, while the absent id test-id yields 200 with an
empty object. -/
theorem C5_subresource_parent_404_witness :
    doGETcore stSample ["", "api", "v1", "jobs", "nope", "inputs"] none none =
      some (.jsonRes 404 (.jobj [("error", .jstr "Job not found")]))
    ∧ doGETcore stSample ["", "api", "v1", "jobs", "test-id", "inputs"] none none =
        some (.jsonRes 200 (.jobj [])) :=
  ⟨(C5_subresource_parent_404 stSample "nope" "inputs" rfl (Or.inl rfl)).1 (by decide),
   ((C5_subresource_parent_404 stSample "test-id" "inputs" rfl (Or.inl rfl)).2 rfl).2.1⟩

/-- C8: for a stored job id (which, being a generated uuid, differs from
the reserved literal events), GET then DELETE then GET yield 200, 200,
404 in that order; the delete removes both the job record and its
outputs record, so no orphan outputs entry remains; deleting an absent id
yields 404 and changes nothing. -/
theorem C8_get_delete_get (st : Store) (id : String) (hwf : wfKeys st)
    (hid : id ≠ "events") :
    (∀ j, alGet? id st.jobs = some j →
      doGETcore st ["", "api", "v1", "jobs", id] none none =
        some (.jsonRes 200 (jobToJ j))
      ∧ doDELETEcore st ["", "api", "v1", "jobs", id] =
          (.jsonRes 200 (.jobj [("message", .jstr "Job deleted")]),
           ⟨alDel id st.jobs, alDel id st.job_outputs⟩)
      ∧ alHas id (alDel id st.jobs) = false
      ∧ alHas id (alDel id st.job_outputs) = false
      ∧ doGETcore ⟨alDel id st.jobs, alDel id st.job_outputs⟩
          ["", "api", "v1", "jobs", id] none none =
        some (.jsonRes 404 (.jobj [("error", .jstr "Job not found")])))
    ∧ (alGet? id st.jobs = none →
      doDELETEcore st ["", "api", "v1", "jobs", id] =
        (.jsonRes 404 (.jobj [("error", .jstr "Job not found")]), st)) := by
  constructor
  · intro j hj
    have hdel : alGet? id (alDel id st.jobs) = none :=
      alGet?_alDel_self id st.jobs hwf.1
    have hdelo : alGet? id (alDel id st.job_outputs) = none :=
      alGet?_alDel_self id st.job_outputs hwf.2
    refine ⟨?_, ?_, ?_, ?_, ?_⟩
    · rw [doGET_detail_eq st id none none hid]
      simp [getJobDetail, hj]
    · rw [doDELETE_jobs_eq]
      simp [alHas, hj]
    · simp [alHas, hdel]
    · simp [alHas, hdelo]
    · rw [doGET_detail_eq _ id none none hid]
      simp [getJobDetail, hdel]
  · intro hj
    rw [doDELETE_jobs_eq]
    simp [alHas, hj]

/-- C8 witness: the stored job j1 yields 200, 200, 404 for GET, DELETE,
GET with its outputs record also removed, and deleting the absent id zz
yields 404. -/
theorem C8_get_delete_get_witness :
    (doGETcore stSample ["", "api", "v1", "jobs", "j1"] none none =
      some (.jsonRes 200 (jobToJ sampleFinished))
    ∧ doDELETEcore stSample ["", "api", "v1", "jobs", "j1"] =
        (.jsonRes 200 (.jobj [("message", .jstr "Job deleted")]),
         ⟨alDel "j1" stSample.jobs, alDel "j1" stSample.job_outputs⟩)
    ∧ alHas "j1" (alDel "j1" stSample.jobs) = false
    ∧ alHas "j1" (alDel "j1" stSample.job_outputs) = false
    ∧ doGETcore ⟨alDel "j1" stSample.jobs, alDel "j1" stSample.job_outputs⟩
        ["", "api", "v1", "jobs", "j1"] none none =
      some (.jsonRes 404 (.jobj [("error", .jstr "Job not found")])))
    ∧ doDELETEcore stSample ["", "api", "v1", "jobs", "zz"] =
        (.jsonRes 404 (.jobj [("error", .jstr "Job not found")]), stSample) :=
  ⟨(C8_get_delete_get stSample "j1" ⟨by decide, by decide⟩ (by decide)).1
      sampleFinished rfl,
   (C8_get_delete_get stSample "zz" ⟨by decide, by decide⟩ (by decide)).2 rfl⟩

/-- C9: a successful creation stores the inputs object supplied in the
request unchanged, and the inputs sub-resource of the new job returns
exactly that object, whatever string values (including non-ASCII) it
holds. -/
theorem C9_inputs_roundtrip (st : Store) (fields ifs : List (String × JVal))
    (sid newId now : String)
    (hspec : alGet? "spec" fields = some (.jstr sid))
    (hsid : sid = "echo" ∨ sid = "sleep")
    (hinp : alGet? "inputs" fields = some (.jobj ifs))
    (hmsg : sid = "echo" → (pyGetMessage (.jobj ifs)).isSome = true) :
    doGETcore (doPOSTcore st ["", "api", "v1", "jobs"]
        (.json (.jobj fields)) newId now).snd
      ["", "api", "v1", "jobs", newId, "inputs"] none none =
      some (.jsonRes 200 (.jobj ifs)) := by
  rw [doPOST_createObj_eq, hspec]
  rcases hsid with h | h
  · subst h
    simp only [createJob, hinp]
    cases hm : pyGetMessage ((some (JVal.jobj ifs)).getD (.jobj [])) with
    | none =>
      have hsome := hmsg rfl
      simp only [Option.getD_some] at hm
      rw [hm] at hsome
      simp at hsome
    | some msg =>
      rw [doGET_sub_eq _ newId "inputs" none none
        (hasUpdatesSeg_gen newId "inputs" (by decide))]
      simp [getJobSub, alHas, alGet?_alSet_self]
  · subst h
    simp only [createJob, hinp]
    rw [doGET_sub_eq _ newId "inputs" none none
      (hasUpdatesSeg_gen newId "inputs" (by decide))]
    simp [getJobSub, alHas, alGet?_alSet_self]

/-- C9 witness: a sleep job created with a non-ASCII inputs mapping round
trips that mapping through the inputs sub-resource unchanged. -/
theorem C9_inputs_roundtrip_witness :
    doGETcore (doPOSTcore ⟨[], []⟩ ["", "api", "v1", "jobs"]
        (.json (.jobj [("spec", .jstr "sleep"),
                       ("inputs", .jobj [("message", .jstr "héllo wörld")])]))
        "id9" "t9").snd
      ["", "api", "v1", "jobs", "id9", "inputs"] none none =
      some (.jsonRes 200 (.jobj [("message", .jstr "héllo wörld")])) :=
  C9_inputs_roundtrip ⟨[], []⟩
    [("spec", .jstr "sleep"), ("inputs", .jobj [("message", .jstr "héllo wörld")])]
    [("message", .jstr "héllo wörld")] "sleep" "id9" "t9"
    rfl (Or.inr rfl) rfl (by intro h; exact absurd h (by decide))

/-- C10: a DELETE of any path below the jobs collection whose fifth
segment is a stored job id removes that job and its outputs and returns
200, whatever further segments follow; in particular a DELETE aimed at a
sub-resource path removes the parent job itself. -/
theorem C10_delete_ignores_extra_segments (st : Store) (x : String)
    (rest : List String) (hwf : wfKeys st) (h : alHas x st.jobs = true) :
    doDELETEcore st ("" :: "api" :: "v1" :: "jobs" :: x :: rest) =
      (.jsonRes 200 (.jobj [("message", .jstr "Job deleted")]),
       ⟨alDel x st.jobs, alDel x st.job_outputs⟩)
    ∧ alHas x (alDel x st.jobs) = false := by
  refine ⟨?_, ?_⟩
  · rw [doDELETE_jobs_eq]
    simp [h]
  · simp [alHas, alGet?_alDel_self x st.jobs hwf.1]

/-- C10 witness: a DELETE on the stdout sub-resource path of the stored
job j1 deletes j1 itself and returns 200. -/
theorem C10_delete_ignores_extra_segments_witness :
    doDELETEcore stSample ["", "api", "v1", "jobs", "j1", "stdout"] =
      (.jsonRes 200 (.jobj [("message", .jstr "Job deleted")]),
       ⟨alDel "j1" stSample.jobs, alDel "j1" stSample.job_outputs⟩)
    ∧ alHas "j1" (alDel "j1" stSample.jobs) = false :=
  C10_delete_ignores_extra_segments stSample "j1" ["stdout"]
    ⟨by decide, by decide⟩ rfl
